import Mathlib

/-!
Verification of the `aurion_rs` client (sehnryr/aurion_rs) against its
natural-language specification.

The development is a shallow embedding of the repository's pure,
deterministic core into Lean:

* `src/event/event.rs` — the title parser (`parse_title`), the event kind
  classifier (`map_kind`) and the raw-event conversion (`parse_event` /
  `Event::from_raw_event`);
* `src/menu/node.rs` and `src/menu/menu.rs` — the menu tree (`Node`, `Menu`);
* `src/aurion.rs` — the deterministic parts of `get_menu_child_nodes`,
  `get_class_groups` and `get_schedule`: precondition checks, the request
  payload that is built from the session tokens, the CDATA delimiter
  handling of the schedule response, and the record-conversion loop.
  Network transmission, HTML/XPath extraction and JSON decoding are external
  collaborators (per spec §1/§6); they enter the embedding as explicit
  inputs (the response text, the list of sidebar items parsed from the HTML
  fragment, the JSON decode function).

Rust strings are modelled as `List Char`; Rust byte-indexed slicing
(`&s[16..]`) is modelled by `byteDrop`, which counts UTF-8 bytes per
character.  Code that can panic (`unwrap`, `panic!`, out-of-bounds
indexing/slicing) is modelled in the `Outcome` type, which distinguishes a
Rust panic from a normally returned value; fallible functions return
`Outcome (Except String α)` so that a returned `Err` (`.ok (.error e)`) is
kept distinct from a panic (`.panic msg`).
-/

deriving instance DecidableEq for Except

namespace Aurion

/-- Result of running a piece of Rust code that may panic: either a panic
with a message, or a normally produced value. -/
inductive Outcome (α : Type) where
  | panic (msg : String)
  | ok (a : α)
deriving DecidableEq

/-- `true` exactly when a fallible computation returned an `Err` result
(as opposed to panicking or succeeding). -/
def outcomeIsErrResult {α : Type} : Outcome (Except String α) → Bool
  | .ok (.error _) => true
  | _ => false

/-- `true` exactly when an `Except` value is an `.error`. -/
def exceptIsError {ε α : Type} : Except ε α → Bool
  | .error _ => true
  | .ok _ => false

/-! ### String primitives

Rust `&str` values are modelled as `List Char`.  The helpers below embed the
exact `str` operations the source uses: `split_once`, `rsplit_once`,
`split`, `trim`, `starts_with`, byte-indexed slicing and `u32::from_str`. -/

/-- Number of bytes of the UTF-8 encoding of a character (Rust
`char::len_utf8`). -/
def utf8Size (c : Char) : Nat :=
  if c.val < 0x80 then 1 else if c.val < 0x800 then 2
  else if c.val < 0x10000 then 3 else 4

/-- Rust byte slicing `&s[n..]`: drop the first `n` bytes.  Returns `none`
when Rust would panic (i.e. when `n` is past the end of the string or not on
a character boundary). -/
def byteDrop : Nat → List Char → Option (List Char)
  | 0, l => some l
  | _ + 1, [] => none
  | n + 1, c :: cs =>
    if utf8Size c ≤ n + 1 then byteDrop (n + 1 - utf8Size c) cs else none

/-- Rust `str::trim` (whitespace stripped from both ends). -/
def trimL (l : List Char) : List Char :=
  ((l.dropWhile Char.isWhitespace).reverse.dropWhile Char.isWhitespace).reverse

/-- Rust `str::split_once(sep)`: split at the first occurrence of `sep`,
excluding the separator from both parts; `none` when `sep` does not occur. -/
def splitOnceL (sep : List Char) : List Char → Option (List Char × List Char)
  | [] => if sep.isEmpty then some ([], []) else none
  | c :: cs =>
    if sep.isPrefixOf (c :: cs) then some ([], (c :: cs).drop sep.length)
    else
      match splitOnceL sep cs with
      | some (pre, suf) => some (c :: pre, suf)
      | none => none

/-- Rust `str::rsplit_once(sep)`: split at the last occurrence of `sep`,
excluding the separator from both parts; `none` when `sep` does not occur. -/
def rsplitOnceL (sep : List Char) : List Char → Option (List Char × List Char)
  | [] => none
  | c :: cs =>
    match rsplitOnceL sep cs with
    | some (pre, suf) => some (c :: pre, suf)
    | none =>
      if sep.isPrefixOf (c :: cs) then some ([], (c :: cs).drop sep.length)
      else none

/-- Fuel-driven worker for `splitSepL`; the fuel bounds the number of
separator occurrences, so `l.length` is always enough. -/
def splitSepFuel (sep : List Char) : Nat → List Char → List (List Char)
  | 0, l => [l]
  | fuel + 1, l =>
    match splitOnceL sep l with
    | none => [l]
    | some (pre, suf) => pre :: splitSepFuel sep fuel suf

/-- Rust `str::split(sep)` for a non-empty separator, collected into a list
(empty pieces are kept, as in Rust). -/
def splitSepL (sep l : List Char) : List (List Char) :=
  splitSepFuel sep l.length l

/-- Rust `str::parse::<u32>()`: an optional leading `'+'`, then one or more
ASCII digits, rejecting values that do not fit in 32 bits. -/
def parseU32 (s : List Char) : Option Nat :=
  let digits := match s with
    | '+' :: rest => rest
    | _ => s
  if digits.isEmpty then none
  else if digits.all Char.isDigit then
    let v := digits.foldl (fun a c => a * 10 + (c.toNat - 48)) 0
    if v < 4294967296 then some v else none
  else none

/-! ### Event model and title parser (`src/event/event.rs`, `src/event/raw_event.rs`) -/

/-- The kind of an event (`EventKind` in `src/event/event.rs`). -/
inductive EventKind where
  | Course
  | Exam
  | Leave
  | Meeting
  | PracticalWork
  | SupervisedWork
  | Project
  | Other
deriving DecidableEq

/-- `RawEvent` (`src/event/raw_event.rs`).  Strings are `List Char`;
`DateTime<Utc>` is modelled as an integer timestamp, which is all the code
observes of it (the timestamps pass through conversion unchanged). -/
structure RawEvent where
  id : List Char
  title : List Char
  start : Int
  «end» : Int
  allDay : Bool
  editable : Bool
  className : List Char
deriving DecidableEq

/-- `Event` (`src/event/event.rs`). -/
structure Event where
  id : Nat
  kind : EventKind
  start : Int
  «end» : Int
  rooms : List (List Char)
  subject : List Char
  chapter : Option (List Char)
  participants : List (List Char)
deriving DecidableEq

/-- The result tuple of `parse_title` (rooms, subject, chapter,
participants), named for readability. -/
structure ParsedTitle where
  rooms : List (List Char)
  subject : List Char
  chapter : Option (List Char)
  participants : List (List Char)
deriving DecidableEq

/-- `map_kind` (`src/event/event.rs` lines 82–97): lowercase the label, then
an exact-match table with an `Other` fallback.  Rust's `str::to_lowercase`
is full-Unicode; `Char.toLower` lowers ASCII letters.  The two agree on
every ASCII input, and no non-ASCII input can hit a table entry under
either lowering (no uppercase character outside ASCII lowercases to any of
the table's letters), so the classification is the same function. -/
def map_kind (event_type : List Char) : EventKind :=
  let s := event_type.map Char.toLower
  if s = "conges".toList then .Leave
  else if s = "cm".toList then .Course
  else if s = "cours".toList then .Course
  else if s = "est-epreuve".toList then .Exam
  else if s = "evaluation".toList then .Exam
  else if s = "ds".toList then .Exam
  else if s = "reunion".toList then .Meeting
  else if s = "td".toList then .SupervisedWork
  else if s = "cours_td".toList then .SupervisedWork
  else if s = "tp".toList then .PracticalWork
  else if s = "projet".toList then .Project
  else .Other

/-- The separator `" - "`. -/
def sepDash : List Char := " - ".toList

/-- The separator `" / "`. -/
def sepSlash : List Char := " / ".toList

/-- The error message returned by `parse_title` for an unrecognized title
format (`src/event/event.rs` lines 176–180). -/
def unrecognizedTitleMsg : String :=
  "The title is not of the form \"12h00 à 13h00 - ...\" or \"12h00 - 13h00 - ...\"."

/-- `parse_title` (`src/event/event.rs` lines 128–184), including its panic
behaviour:

* character 6 = `'à'`: drop the first 16 **bytes** (`title[16..]`, a panic
  when out of range or off a boundary), `rsplit_once(" - ").unwrap()` (a
  panic when the separator is absent), keep the part before the last
  separator and `split(" - ")` it into `slots`; `slots[0]` split on
  `" / "`, each part trimmed, gives the rooms (empties kept, as in Rust);
  `slots[2]` is the subject (an index panic when there are fewer than three
  slots); `slots[3..len-1]` joined with `" - "` and trimmed is the chapter
  when non-empty (a slice panic when `len = 3`, because `3 > len - 1`);
  `slots[len-1]` split on `" / "`, trimmed, empties discarded, gives the
  participants;
* character 6 = `'-'`: `panic!("Not implemented yet")`;
* anything else: the `Err` result `unrecognizedTitleMsg`.

The rooms are computed before the subject indexing in the source, but
neither can panic before `slots[2]` is read, so the panic order matches. -/
def parse_title (title : List Char) : Outcome (Except String ParsedTitle) :=
  if title[6]? = some 'à' then
    match byteDrop 16 title with
    | none => .panic "byte index 16 is out of bounds or not a char boundary"
    | some rest =>
      match rsplitOnceL sepDash rest with
      | none => .panic "called Option::unwrap() on a None value"
      | some (kept, _) =>
        let slots := splitSepL sepDash kept
        let rooms := (splitSepL sepSlash (slots.getD 0 [])).map trimL
        if slots.length < 3 then
          .panic "index out of bounds"
        else if slots.length < 4 then
          .panic "slice index starts at 3 but ends at 2"
        else
          let subject := slots.getD 2 []
          let chapterJoined :=
            trimL (List.intercalate sepDash ((slots.drop 3).take (slots.length - 1 - 3)))
          let chapter := if chapterJoined = [] then none else some chapterJoined
          let participants :=
            ((splitSepL sepSlash (slots.getD (slots.length - 1) [])).map trimL).filter
              (fun p => p ≠ [])
          .ok (.ok ⟨rooms, subject, chapter, participants⟩)
  else if title[6]? = some '-' then
    .panic "Not implemented yet"
  else
    .ok (.error unrecognizedTitleMsg)

/-- `parse_event` (`src/event/event.rs` lines 100–124):
`event.id.parse().unwrap()` (a panic when the id is not a decimal `u32`),
`map_kind` on the class name, then `parse_title`; a title parse error is
returned as an `Err`, and the timestamps pass through unchanged. -/
def parse_event (event : RawEvent) : Outcome (Except String Event) :=
  match parseU32 event.id with
  | none => .panic "called Result::unwrap() on an Err value"
  | some id =>
    let kind := map_kind event.className
    match parse_title event.title with
    | .panic msg => .panic msg
    | .ok (.error e) => .ok (.error e)
    | .ok (.ok t) =>
      .ok (.ok { id, kind, start := event.start, «end» := event.«end»,
                 rooms := t.rooms, subject := t.subject, chapter := t.chapter,
                 participants := t.participants })

/-- `Event::from_raw_event` (`src/event/event.rs` lines 75–80). -/
def Event.from_raw_event (event : RawEvent) : Outcome (Except String Event) :=
  parse_event event

/-! ### Menu tree (`src/menu/node.rs`, `src/menu/menu.rs`)

The Rust tree shares `Rc<RefCell<Node>>` values between the flat
`HashMap<String, _>` index and the `children` vectors.  The embedding is the
arena form the spec's design notes (§9) describe: nodes live in one
id-keyed association list, and `children`/`parent` edges are id references.
Mutation of a node through the shared `Rc` is modelled by updating the node
under its id in the store (write-through aliasing). -/

/-- `Node` (`src/menu/node.rs`): `children` and `parent` hold the ids of the
referenced nodes. -/
structure Node where
  id : String
  name : String
  children : List String
  parent : Option String
deriving DecidableEq

/-- `Node::new`: a fresh node with no children. -/
def Node.new (id name : String) (parent : Option String) : Node :=
  { id, name, children := [], parent }

/-- `Node::add_child`: push the child (recorded by id) onto the ordered
child list. -/
def Node.add_child (n : Node) (child : Node) : Node :=
  { n with children := n.children ++ [child.id] }

/-- `self.id.starts_with("submenu_")`, the id-shape test used by
`is_loaded` and `is_leaf`.  `str::starts_with` with a string pattern is a
prefix test, here on the character list. -/
def idStartsSubmenu (id : String) : Bool :=
  "submenu_".toList.isPrefixOf id.toList

/-- `Node::is_loaded` (`src/menu/node.rs` line 36):
`!(id.starts_with("submenu_") ^ !children.is_empty())`. -/
def Node.is_loaded (n : Node) : Bool :=
  !(idStartsSubmenu n.id ^^ !n.children.isEmpty)

/-- `Node::is_leaf` (`src/menu/node.rs` line 41). -/
def Node.is_leaf (n : Node) : Bool :=
  !idStartsSubmenu n.id && n.children.isEmpty

/-- `HashMap::insert`: replace the binding under the key if present,
otherwise add it. -/
def insertReplace (k : String) (v : Node) : List (String × Node) → List (String × Node)
  | [] => [(k, v)]
  | (k', v') :: rest =>
    if k' = k then (k, v) :: rest else (k', v') :: insertReplace k v rest

/-- `Menu` (`src/menu/menu.rs`): the flat id-keyed node index plus the
construction-time configuration. -/
structure Menu where
  language_code : Nat
  schooling_id : String
  user_planning_id : String
  groups_planning_id : String
  nodes : List (String × Node)
deriving DecidableEq

/-- `Menu::new`: seeds the two root nodes ("Schooling" and "Groups"),
childless, under their configured ids. -/
def Menu.new (language_code : Nat)
    (schooling_id user_planning_id groups_planning_id : String) : Menu :=
  let schooling_node := Node.new schooling_id "Schooling" none
  let groups_planning_node := Node.new groups_planning_id "Groups" none
  { language_code, schooling_id, user_planning_id, groups_planning_id,
    nodes := insertReplace groups_planning_id groups_planning_node
      (insertReplace schooling_id schooling_node []) }

/-- `Menu::add_node`: register a node in the flat index under its id. -/
def Menu.add_node (m : Menu) (node : Node) : Menu :=
  { m with nodes := insertReplace node.id node m.nodes }

/-- Association-list lookup (the embedding of `HashMap::get`). -/
def lookupNodes (menu_id : String) : List (String × Node) → Option Node
  | [] => none
  | (k, v) :: rest => if menu_id = k then some v else lookupNodes menu_id rest

/-- `Menu::get_menu_node`: O(1) `HashMap` lookup, here an association-list
lookup. -/
def Menu.get_menu_node (m : Menu) (menu_id : String) : Option Node :=
  lookupNodes menu_id m.nodes

/-- `Menu::is_node_loaded` (`src/menu/menu.rs` lines 72–78): false for an
unknown id, otherwise the node's derived `is_loaded`. -/
def Menu.is_node_loaded (m : Menu) (menu_id : String) : Bool :=
  match m.get_menu_node menu_id with
  | some node => node.is_loaded
  | none => false

/-- Apply `f` to the node stored under `id`, leaving other bindings
unchanged. -/
def updateNodesList (id : String) (f : Node → Node) : List (String × Node) → List (String × Node)
  | [] => []
  | (k, v) :: rest =>
    if k = id then (k, f v) :: updateNodesList id f rest
    else (k, v) :: updateNodesList id f rest

/-- Update the node stored under `id` in place (the effect of mutating a
node through the `Rc` shared by the index and the child edges). -/
def Menu.updateNode (m : Menu) (id : String) (f : Node → Node) : Menu :=
  { m with nodes := updateNodesList id f m.nodes }

/-! ### Session engine, deterministic parts (`src/aurion.rs`) -/

/-- The token-dependent fields of the AJAX payload `get_menu_child_nodes`
builds (`src/aurion.rs` lines 164–180).  `jIdt` is the
`"form:j_idt{form_id}"` component name (used for `javax.faces.source`,
`javax.faces.partial.execute` and the self-keyed entry); `viewState` is the
`javax.faces.ViewState` value; `submenuId` is
`webscolaapp.Sidebar.ID_SUBMENU`.  The remaining payload entries are fixed
constants and are omitted. -/
structure ChildNodesPayload where
  jIdt : String
  viewState : String
  submenuId : String
deriving DecidableEq

/-- One iteration of the child-discovery loop of `get_menu_child_nodes`
(`src/aurion.rs` lines 216–272) for a discovered item `(id, name)`: create
the child with the expanding node as parent, `node.add_child(child)` on the
shared parent cell, then `menu.add_node(child)`. -/
def expandStep (menu_id : String) (m : Menu) (item : String × String) : Menu :=
  let child : Node := { id := item.1, name := item.2, children := [], parent := some menu_id }
  let m' := m.updateNode menu_id (fun n => n.add_child child)
  m'.add_node child

/-- The deterministic core of `get_menu_child_nodes` (`src/aurion.rs` lines
145–275).  The HTML round trip is an external collaborator: `items` is the
(id, name) list the XPath scrape extracts from the returned sidebar
fragment, in document order.  The function returns the payload it would
POST (built from the session tokens with
`form_id.clone().unwrap_or_default()`, i.e. `0` when absent, and
`view_state.clone().unwrap_or_default()`, i.e. `""` when absent), the
updated menu, and `node.get_children()` — the expanding node's full child
id list after the discovered items were attached.  An unknown `menu_id` is
an error before anything else happens (lines 152–159). -/
def get_menu_child_nodes (m : Menu) (view_state : Option String)
    (form_id : Option Nat) (menu_id : String) (items : List (String × String)) :
    Except String (ChildNodesPayload × Menu × List String) :=
  match m.get_menu_node menu_id with
  | none =>
    .error ("Failed to get menu child nodes: menu node with id " ++ menu_id ++ " not found.")
  | some _ =>
    let payload : ChildNodesPayload :=
      { jIdt := "form:j_idt" ++ toString (form_id.getD 0),
        viewState := view_state.getD "",
        submenuId := menu_id }
    let m' := items.foldl (expandStep menu_id) m
    .ok (payload, m', ((m'.get_menu_node menu_id).map Node.children).getD [])

/-- The precondition checks of `get_class_groups` (`src/aurion.rs` lines
336–366), all of which run before the first network request is sent: an
unknown node, a non-leaf node, or an unloaded node is an error. -/
def get_class_groups_precheck (m : Menu) (class_group_id : String) : Except String Unit :=
  match m.get_menu_node class_group_id with
  | none => .error ("Node " ++ class_group_id ++ " not found")
  | some node =>
    if !node.is_leaf then .error ("Node " ++ class_group_id ++ " is not a leaf node")
    else if !node.is_loaded then .error ("Node " ++ class_group_id ++ " is not loaded")
    else .ok ()

/-- The fixed prefix delimiter of the schedule response,
`<![CDATA[{"events" : ` (`src/aurion.rs` line 490). -/
def scheduleSplitter : List Char := "<![CDATA[\x7b\"events\" : ".toList

/-- The fixed closing delimiter of the schedule response, `}]]></update>`
(`src/aurion.rs` line 499). -/
def scheduleCloser : List Char := "\x7d]]></update>".toList

/-- The record-conversion loop of `get_schedule` (`src/aurion.rs` lines
502–507): convert each raw event in order; the `?` operator returns the
first conversion error immediately, discarding the events already
converted. -/
def convertEvents : List RawEvent → Outcome (Except String (List Event))
  | [] => .ok (.ok [])
  | r :: rs =>
    match Event.from_raw_event r with
    | .panic msg => .panic msg
    | .ok (.error e) => .ok (.error e)
    | .ok (.ok ev) =>
      match convertEvents rs with
      | .panic msg => .panic msg
      | .ok (.error e) => .ok (.error e)
      | .ok (.ok evs) => .ok (.ok (ev :: evs))

/-- The response-processing tail of `get_schedule` (`src/aurion.rs` lines
488–509): `split_once` on the fixed `<![CDATA[{"events" : ` prefix (its
absence is the protocol-format error), `split_once("}]]></update>").unwrap()`
on the remainder (a panic when the closer is absent), JSON-decode the
enclosed text (`serde_json::from_str`, an external collaborator passed in as
`decode`; its error propagates via `?`), then the conversion loop. -/
def processScheduleResponse (text : List Char)
    (decode : List Char → Except String (List RawEvent)) :
    Outcome (Except String (List Event)) :=
  match splitOnceL scheduleSplitter text with
  | none => .ok (.error "Response to get schedule was not valid")
  | some (_, rest) =>
    match splitOnceL scheduleCloser rest with
    | none => .panic "called Option::unwrap() on a None value"
    | some (data, _) =>
      match decode data with
      | .error e => .ok (.error e)
      | .ok raw_schedule => convertEvents raw_schedule

/-! ### Concrete inputs used by the claims, and small projections -/

/-- The child-list component of a `get_menu_child_nodes` result. -/
def childList (r : Except String (ChildNodesPayload × Menu × List String)) : List String :=
  match r with
  | .ok (_, _, l) => l
  | .error _ => []

/-- The payload component of a `get_menu_child_nodes` result. -/
def payloadOf (r : Except String (ChildNodesPayload × Menu × List String)) :
    Option ChildNodesPayload :=
  match r with
  | .ok (p, _, _) => some p
  | .error _ => none

/-- The updated-menu component of a `get_menu_child_nodes` result (the
fallback is returned in the error case). -/
def menuOf (r : Except String (ChildNodesPayload × Menu × List String))
    (fallback : Menu) : Menu :=
  match r with
  | .ok (_, m, _) => m
  | .error _ => fallback

/-- The spec §8 round-trip title. -/
def c2_title : List Char :=
  "09h00 à 10h00 - A101 / A102 - X - Mathematics - Vectors - Dr. Smith / Dr. Jones".toList

/-- The spec §8 no-chapter title. -/
def c7_title : List Char := "09h00 à 10h00 - A101 - X - Physics - Dr. Smith".toList

/-- A title that passes the `'à'` check but has no `" - "` after the
16-byte prefix removal. -/
def c8_title : List Char := "09h00 à 10h00 - A101".toList

/-- What remains of `c8_title` after the 16-byte prefix removal. -/
def c8_rest : List Char := " A101".toList

/-- A title whose character at index 6 is `'-'` (the ISEN Lille format). -/
def c5_dash_title : List Char := "12h00 - 13h00 - A101 - X - Physics - Dr. Smith".toList

/-- A title whose character at index 6 is neither `'à'` nor `'-'`. -/
def c5_other_title : List Char := "hello world".toList

/-- A menu with the construction described in the crate's doc example:
two category roots and a leaf user-planning id. -/
def demo_menu : Menu := Menu.new 275805 "submenu_291906" "1_3" "submenu_299102"

/-- One discovered sidebar item, as the XPath scrape would deliver it. -/
def c3_items : List (String × String) := [("1_42", "Foo")]

/-- First expansion of the schooling root with `c3_items`. -/
def c3_first : Except String (ChildNodesPayload × Menu × List String) :=
  get_menu_child_nodes demo_menu none none "submenu_291906" c3_items

/-- The menu state after the first expansion. -/
def c3_menu1 : Menu := menuOf c3_first demo_menu

/-- Second expansion of the same node, the portal returning the same
sidebar fragment (hence the same parsed items). -/
def c3_second : Except String (ChildNodesPayload × Menu × List String) :=
  get_menu_child_nodes c3_menu1 none none "submenu_291906" c3_items

/-- A category node used to exercise the `is_loaded` flip. -/
def c4_cat : Node := Node.new "submenu_9" "Cat" none

/-- A leaf node used to exercise immediate loadedness. -/
def c4_leaf : Node := Node.new "1_7" "Leaf" none

/-- A schedule response body that lacks the `<![CDATA[{"events" : `
delimiter. -/
def c6_bad_text : List Char := "schedule without the delimiter".toList

/-- A schedule response body with both delimiters around a payload. -/
def c6_good_text : List Char := scheduleSplitter ++ "[]".toList ++ scheduleCloser

/-- A raw record whose title the title parser rejects (character 6 is
`'z'`), so its conversion fails with the unrecognized-format error. -/
def c6_bad_raw : RawEvent :=
  { id := "1".toList, title := "zzzzzzzzz".toList, start := 0, «end» := 1,
    allDay := false, editable := false, className := "cm".toList }

/-- A JSON decoder stub returning one inconvertible record. -/
def c6_decode_bad : List Char → Except String (List RawEvent) := fun _ => .ok [c6_bad_raw]

/-- A JSON decoder stub returning no records. -/
def c6_decode_empty : List Char → Except String (List RawEvent) := fun _ => .ok []

/-- A raw record with a numeric id and a parseable title. -/
def c10_raw : RawEvent :=
  { id := "123".toList, title := c2_title, start := 5, «end» := 7,
    allDay := false, editable := false, className := "CM".toList }

/-! ### Supporting lemmas -/

theorem splitOnceL_nil (sep : List Char) (hsep : sep ≠ []) : splitOnceL sep [] = none := by
  cases sep with
  | nil => exact absurd rfl hsep
  | cons s ss => simp [splitOnceL]

theorem splitSepFuel_ne_nil (sep : List Char) (fuel : Nat) (l : List Char) :
    splitSepFuel sep fuel l ≠ [] := by
  cases fuel with
  | zero => simp [splitSepFuel]
  | succ f =>
    simp only [splitSepFuel]
    cases h : splitOnceL sep l with
    | none => simp
    | some p => obtain ⟨pre, suf⟩ := p; simp

/-- The `split(" - ")` slot list has fewer than two entries exactly when the
separator does not occur (so `split_once`/`rsplit_once` would find
nothing). -/
theorem splitSepL_short_iff (sep l : List Char) (hsep : sep ≠ []) :
    (splitSepL sep l).length < 2 ↔ splitOnceL sep l = none := by
  cases l with
  | nil =>
    simp [splitSepL, splitSepFuel, splitOnceL_nil sep hsep]
  | cons c cs =>
    simp only [splitSepL, List.length_cons, splitSepFuel]
    cases h : splitOnceL sep (c :: cs) with
    | none => simp
    | some p =>
      obtain ⟨pre, suf⟩ := p
      simp only [List.length_cons]
      constructor
      · intro hlen
        exfalso
        have hne := splitSepFuel_ne_nil sep cs.length suf
        cases hs : splitSepFuel sep cs.length suf with
        | nil => exact hne hs
        | cons a as => rw [hs] at hlen; simp at hlen; omega
      · intro hnone; cases hnone

/-- `rsplit_once` finds nothing exactly when `split_once` finds nothing
(the separator is absent). -/
theorem rsplitOnceL_eq_none_iff (sep : List Char) (hsep : sep ≠ []) :
    ∀ l : List Char, rsplitOnceL sep l = none ↔ splitOnceL sep l = none := by
  intro l
  induction l with
  | nil => simp [rsplitOnceL, splitOnceL_nil sep hsep]
  | cons c cs ih =>
    simp only [rsplitOnceL, splitOnceL]
    cases h1 : rsplitOnceL sep cs with
    | some p =>
      obtain ⟨pre, suf⟩ := p
      have h2 : splitOnceL sep cs ≠ none := by
        intro hn
        rw [(ih.2 hn : rsplitOnceL sep cs = none)] at h1
        cases h1
      cases hp : sep.isPrefixOf (c :: cs) with
      | true => simp
      | false =>
        simp only [Bool.false_eq_true, if_false]
        cases h2' : splitOnceL sep cs with
        | none => exact absurd h2' h2
        | some q => obtain ⟨p2, s2⟩ := q; simp
    | none =>
      have h2 : splitOnceL sep cs = none := ih.1 h1
      cases hp : sep.isPrefixOf (c :: cs) with
      | true => simp
      | false => simp [h2]

theorem lookup_insertReplace (k k' : String) (v : Node) (l : List (String × Node)) :
    lookupNodes k' (insertReplace k v l) = if k' = k then some v else lookupNodes k' l := by
  induction l with
  | nil => by_cases h : k' = k <;> simp [insertReplace, lookupNodes, h]
  | cons p rest ih =>
    obtain ⟨k₀, v₀⟩ := p
    by_cases h0 : k₀ = k
    · subst h0
      by_cases h : k' = k₀ <;> simp [insertReplace, lookupNodes, h]
    · by_cases h : k' = k₀
      · subst h
        have hk : ¬ k' = k := h0
        simp [insertReplace, h0, lookupNodes, hk]
      · have h0' : ¬ k = k₀ := fun hh => h0 hh.symm
        by_cases h2 : k' = k
        · subst h2
          simp [insertReplace, h0, h0', lookupNodes, h, ih]
        · simp [insertReplace, h0, h0', lookupNodes, h, h2, ih]

theorem mem_keys_insertReplace (k k'' : String) (v : Node) (l : List (String × Node)) :
    k'' ∈ (insertReplace k v l).map Prod.fst ↔ k'' = k ∨ k'' ∈ l.map Prod.fst := by
  induction l with
  | nil => simp [insertReplace]
  | cons p rest ih =>
    obtain ⟨k₀, v₀⟩ := p
    by_cases h0 : k₀ = k
    · subst h0
      have hrepl : insertReplace k₀ v ((k₀, v₀) :: rest) = (k₀, v) :: rest := by
        simp [insertReplace]
      rw [hrepl]
      simp only [List.map_cons, List.mem_cons]
      tauto
    · simp only [insertReplace, h0, if_false, List.map_cons, List.mem_cons, ih]
      tauto

theorem nodup_keys_insertReplace (k : String) (v : Node) (l : List (String × Node))
    (h : (l.map Prod.fst).Nodup) : ((insertReplace k v l).map Prod.fst).Nodup := by
  induction l with
  | nil => simp [insertReplace]
  | cons p rest ih =>
    obtain ⟨k₀, v₀⟩ := p
    simp only [List.map_cons, List.nodup_cons] at h
    by_cases h0 : k₀ = k
    · subst h0; simpa [insertReplace] using h
    · simp only [insertReplace, h0, if_false, List.map_cons, List.nodup_cons]
      refine ⟨?_, ih h.2⟩
      rw [mem_keys_insertReplace]
      rintro (rfl | hmem)
      · exact h0 rfl
      · exact h.1 hmem

theorem lookup_updateList (id id' : String) (f : Node → Node) (l : List (String × Node)) :
    lookupNodes id' (updateNodesList id f l) =
      if id' = id then (lookupNodes id' l).map f else lookupNodes id' l := by
  induction l with
  | nil => by_cases h : id' = id <;> simp [updateNodesList, lookupNodes, h]
  | cons p rest ih =>
    obtain ⟨k₀, v₀⟩ := p
    by_cases h0 : k₀ = id
    · subst h0
      by_cases h : id' = k₀
      · subst h; simp [updateNodesList, lookupNodes]
      · simp [updateNodesList, lookupNodes, h, ih]
    · by_cases h : id' = k₀
      · subst h
        have hk : ¬ id' = id := h0
        simp [updateNodesList, lookupNodes, h0, hk]
      · simp [updateNodesList, lookupNodes, h0, h, ih]

theorem keys_updateList (id : String) (f : Node → Node) (l : List (String × Node)) :
    (updateNodesList id f l).map Prod.fst = l.map Prod.fst := by
  induction l with
  | nil => simp [updateNodesList]
  | cons p rest ih =>
    obtain ⟨k₀, v₀⟩ := p
    by_cases h0 : k₀ = id <;> simp [updateNodesList, h0, ih]

theorem get_menu_node_updateNode (m : Menu) (id id' : String) (f : Node → Node) :
    (m.updateNode id f).get_menu_node id' =
      if id' = id then (m.get_menu_node id').map f else m.get_menu_node id' := by
  simp [Menu.updateNode, Menu.get_menu_node, lookup_updateList]

theorem get_menu_node_add_node (m : Menu) (c : Node) (id' : String) :
    (m.add_node c).get_menu_node id' =
      if id' = c.id then some c else m.get_menu_node id' := by
  simp [Menu.add_node, Menu.get_menu_node, lookup_insertReplace]

/-- After the discovery loop, the expanding node (never removed or
replaced, because no discovered id equals its id) carries its old children
followed by the discovered ids in order. -/
theorem fold_expand_lookup (menu_id : String) :
    ∀ (items : List (String × String)) (m : Menu) (n : Node),
      m.get_menu_node menu_id = some n → menu_id ∉ items.map Prod.fst →
      (items.foldl (expandStep menu_id) m).get_menu_node menu_id =
        some { n with children := n.children ++ items.map Prod.fst } := by
  intro items
  induction items with
  | nil =>
    intro m n h _
    simpa using h
  | cons i is ih =>
    intro m n h hmem
    simp only [List.map_cons, List.mem_cons, not_or] at hmem
    obtain ⟨hne, hnotin⟩ := hmem
    have hstep : (expandStep menu_id m i).get_menu_node menu_id =
        some { n with children := n.children ++ [i.1] } := by
      simp [expandStep, get_menu_node_add_node, get_menu_node_updateNode, hne, h,
        Node.add_child]
    have hrec := ih (expandStep menu_id m i) _ hstep hnotin
    rw [List.foldl_cons, hrec]
    simp

/-- The discovery loop never duplicates a key in the flat index. -/
theorem fold_expand_nodup (menu_id : String) :
    ∀ (items : List (String × String)) (m : Menu),
      (m.nodes.map Prod.fst).Nodup →
      ((items.foldl (expandStep menu_id) m).nodes.map Prod.fst).Nodup := by
  intro items
  induction items with
  | nil => intro m h; simpa using h
  | cons i is ih =>
    intro m h
    rw [List.foldl_cons]
    apply ih
    simp only [expandStep, Menu.add_node, Menu.updateNode]
    apply nodup_keys_insertReplace
    simp only [keys_updateList]
    exact h

/-- The record-conversion loop aborts on the first record whose conversion
returns an `Err`, provided the records before it convert successfully; no
partial list is produced. -/
theorem convertEvents_error (pre : List RawEvent) (r : RawEvent) (post : List RawEvent)
    (e : String) (hpre : ∀ x ∈ pre, ∃ ev, Event.from_raw_event x = .ok (.ok ev))
    (hr : Event.from_raw_event r = .ok (.error e)) :
    convertEvents (pre ++ r :: post) = .ok (.error e) := by
  induction pre with
  | nil => simp [convertEvents, hr]
  | cons x xs ih =>
    obtain ⟨ev, hx⟩ := hpre x (by simp)
    have hrec := ih (fun y hy => hpre y (by simp [hy]))
    simp [convertEvents, hx, hrec]

/-! ### The claims -/

/-- C2 (counterexample): on the spec §8 round-trip title, `parse_title`
does not return the claimed tuple (rooms `["A101","A102"]`, subject
`"Mathematics"`, chapter `some "Vectors"`, participants
`["Dr. Smith","Dr. Jones"]`); the code drops everything after the last
`" - "`, so `"Dr. Smith / Dr. Jones"` is discarded and `"Vectors"` lands in
the participants slot. -/
theorem C2_roundtrip_claimed_false :
    parse_title c2_title ≠ .ok (.ok
      { rooms := ["A101".toList, "A102".toList], subject := "Mathematics".toList,
        chapter := some "Vectors".toList,
        participants := ["Dr. Smith".toList, "Dr. Jones".toList] }) := by
  decide

/-- C2 (corrected): `parse_title` on the exact input
`"09h00 à 10h00 - A101 / A102 - X - Mathematics - Vectors - Dr. Smith / Dr. Jones"`
succeeds and returns rooms `["A101","A102"]`, subject `"Mathematics"`,
chapter `none`, and participants `["Vectors"]`: the text after the last
`" - "` is discarded by the `rsplit_once` step, the last remaining slot
becomes the participants, and the chapter join `slots[3..len-1]` is empty. -/
theorem C2_roundtrip_actual :
    parse_title c2_title = .ok (.ok
      { rooms := ["A101".toList, "A102".toList], subject := "Mathematics".toList,
        chapter := none, participants := ["Vectors".toList] }) := by
  decide

/-- C4: a stored node is loaded iff it is a category-shaped node
(`submenu_` prefix) with at least one recorded child or a leaf-shaped node
with no children; consequently `add_child` on a childless category node
flips `is_loaded` from false to true, and a freshly created leaf node is
loaded immediately with zero children. -/
theorem C4_loadedness_characterisation :
    (∀ n : Node, n.is_loaded = true ↔
      ((idStartsSubmenu n.id = true ∧ n.children ≠ []) ∨
        (idStartsSubmenu n.id = false ∧ n.children = []))) ∧
    (∀ n c : Node, idStartsSubmenu n.id = true → n.children = [] →
      n.is_loaded = false ∧ (n.add_child c).is_loaded = true) ∧
    (∀ (id name : String) (parent : Option String), idStartsSubmenu id = false →
      (Node.new id name parent).is_loaded = true ∧ (Node.new id name parent).children = []) := by
  refine ⟨?_, ?_, ?_⟩
  · intro n
    cases hp : idStartsSubmenu n.id <;> cases hc : n.children <;>
      simp [Node.is_loaded, hp, hc]
  · intro n c hp hc
    constructor
    · simp [Node.is_loaded, hp, hc]
    · simp [Node.is_loaded, Node.add_child, hp, hc]
  · intro id name parent hp
    constructor
    · simp [Node.is_loaded, Node.new, hp]
    · rfl

/-- C4 (witness): the characterisation applied to a concrete childless
category node (loadedness flips after `add_child`) and a concrete fresh
leaf node (loaded with zero children). -/
theorem C4_loadedness_characterisation_witness :
    (c4_cat.is_loaded = false ∧ (c4_cat.add_child c4_leaf).is_loaded = true) ∧
    ((Node.new "1_7" "Leaf" none).is_loaded = true ∧
      (Node.new "1_7" "Leaf" none).children = []) :=
  ⟨C4_loadedness_characterisation.2.1 c4_cat c4_leaf (by decide) rfl,
    C4_loadedness_characterisation.2.2 "1_7" "Leaf" none (by decide)⟩

/-- C5 (counterexample): on a title whose character at index 6 is `'-'`,
`parse_title` panics (`panic!("Not implemented yet")`) instead of
returning an error result, refuting the claim that an error result is
returned (not a crash) in that case. -/
theorem C5_dash_error_result_false :
    parse_title c5_dash_title = .panic "Not implemented yet" ∧
    outcomeIsErrResult (parse_title c5_dash_title) = false := by
  decide

/-- C5 (corrected): for every title whose character at index 6 is `'-'`,
`parse_title` panics with `"Not implemented yet"` (the unimplemented
ISEN Lille variant); for every title whose character at that position is
neither `'à'` nor `'-'`, it returns the unrecognized-format error result. -/
theorem C5_dash_panics_other_errors :
    ∀ title : List Char,
      (title[6]? = some '-' → parse_title title = .panic "Not implemented yet") ∧
      (title[6]? ≠ some 'à' → title[6]? ≠ some '-' →
        parse_title title = .ok (.error unrecognizedTitleMsg)) := by
  intro title
  constructor
  · intro h
    simp [parse_title, h]
  · intro h1 h2
    simp [parse_title, h1, h2]

/-- C5 (witness): the corrected claim at two concrete titles, one with
`'-'` at index 6 (panic) and one with `'w'` there (error result). -/
theorem C5_dash_panics_other_errors_witness :
    parse_title c5_dash_title = .panic "Not implemented yet" ∧
    parse_title c5_other_title = .ok (.error unrecognizedTitleMsg) :=
  ⟨(C5_dash_panics_other_errors c5_dash_title).1 (by decide),
    (C5_dash_panics_other_errors c5_other_title).2 (by decide) (by decide)⟩

/-- C7 (code evaluated at the failing input): on the spec §8 no-chapter
title `"09h00 à 10h00 - A101 - X - Physics - Dr. Smith"`, `parse_title`
panics — after the trailing `"Dr. Smith"` is dropped there are exactly
three slots, and the chapter slice `title[3..3-1]` is the invalid range
`3..2` — instead of succeeding with chapter `none` as the spec intends
(the empty-chapter join and its emptiness check are unreachable for this
shape). -/
theorem C7_no_chapter_title_panics :
    parse_title c7_title = .panic "slice index starts at 3 but ends at 2" := by
  decide

/-- C8 (counterexample): on a title that passes the `'à'` check but has no
`" - "` after prefix removal, `parse_title` panics (`unwrap` of
`rsplit_once`'s `None`) instead of returning a malformed-input error
result. -/
theorem C8_error_result_false :
    parse_title c8_title = .panic "called Option::unwrap() on a None value" ∧
    outcomeIsErrResult (parse_title c8_title) = false := by
  decide

/-- C8 (corrected): for every title that passes the `'à'`-at-position-6
check and whose text after removal of the 16-byte time-range prefix
contains fewer than two `" - "`-delimited segments, `parse_title` panics
(the `unwrap` on `rsplit_once`'s `None`) rather than returning an error
result. -/
theorem C8_missing_separator_panics :
    ∀ (title rest : List Char),
      title[6]? = some 'à' → byteDrop 16 title = some rest →
      (splitSepL sepDash rest).length < 2 →
      parse_title title = .panic "called Option::unwrap() on a None value" := by
  intro title rest h1 h2 h3
  have hsep : sepDash ≠ [] := by decide
  have hnone : splitOnceL sepDash rest = none := (splitSepL_short_iff sepDash rest hsep).1 h3
  have hrs : rsplitOnceL sepDash rest = none := (rsplitOnceL_eq_none_iff sepDash hsep rest).2 hnone
  simp [parse_title, h1, h2, hrs]

/-- C8 (witness): the corrected claim at the concrete title
`"09h00 à 10h00 - A101"`, whose prefix-removed text `" A101"` has a single
segment. -/
theorem C8_missing_separator_panics_witness :
    parse_title c8_title = .panic "called Option::unwrap() on a None value" :=
  C8_missing_separator_panics c8_title c8_rest (by decide) (by decide) (by decide)

/-- C1 (counterexample): with both session tokens absent (extraction
failed after login) and the target node present, `get_menu_child_nodes`
does not return an error: it proceeds and builds its request with the
silently substituted defaults, form id `0` (`"form:j_idt0"`) and the empty
view-state string. -/
theorem C1_claimed_explicit_error_false :
    payloadOf (get_menu_child_nodes demo_menu none none "submenu_291906" []) =
      some { jIdt := "form:j_idt0", viewState := "", submenuId := "submenu_291906" } ∧
    exceptIsError (get_menu_child_nodes demo_menu none none "submenu_291906" []) = false := by
  decide

/-- C1 (corrected): when the token extraction after login failed (both
tokens `None`), `get_menu_child_nodes` on any node present in the tree does
not fail: `unwrap_or_default()` substitutes form id `0` and the empty
view-state, so the request is built with `"form:j_idt0"` and `""` and the
call proceeds. -/
theorem C1_missing_tokens_use_defaults :
    ∀ (m : Menu) (menu_id : String) (n : Node) (items : List (String × String)),
      m.get_menu_node menu_id = some n →
      ∃ m' children, get_menu_child_nodes m none none menu_id items =
        .ok ({ jIdt := "form:j_idt0", viewState := "", submenuId := menu_id }, m', children) := by
  intro m menu_id n items h
  refine ⟨items.foldl (expandStep menu_id) m,
    (((items.foldl (expandStep menu_id) m).get_menu_node menu_id).map Node.children).getD [],
    ?_⟩
  simp only [get_menu_child_nodes, h]
  rfl

/-- C1 (witness): the corrected claim at a concrete menu holding the
schooling root. -/
theorem C1_missing_tokens_use_defaults_witness :
    ∃ m' children, get_menu_child_nodes demo_menu none none "submenu_291906" [] =
      .ok ({ jIdt := "form:j_idt0", viewState := "", submenuId := "submenu_291906" },
        m', children) :=
  C1_missing_tokens_use_defaults demo_menu "submenu_291906"
    (Node.new "submenu_291906" "Schooling" none) [] (by decide)

/-- C3 (counterexample): expanding the same node twice with the portal
returning the same sidebar fragment does not return the same child list:
the second call returns the first list with the discovered ids appended
again (the `children` vector is pushed to unconditionally). -/
theorem C3_identical_list_false :
    childList c3_first = ["1_42"] ∧
    childList c3_second = ["1_42", "1_42"] ∧
    childList c3_second ≠ childList c3_first := by
  decide

/-- C3 (corrected): re-expanding an already-expanded node with the same
fragment appends the discovered ids to the node's child list again, so the
second call returns the first call's list followed by a duplicate of the
discovered ids (not an identical list); the flat index itself acquires no
duplicate keys (`HashMap::insert` replaces), assuming the expanded node's
id is not among the discovered ids. -/
theorem C3_reexpansion_appends_duplicates :
    ∀ (m : Menu) (vs : Option String) (fid : Option Nat) (menu_id : String) (n : Node)
      (items : List (String × String)),
      m.get_menu_node menu_id = some n →
      menu_id ∉ items.map Prod.fst →
      ∃ p₁ p₂ m₂,
        get_menu_child_nodes m vs fid menu_id items =
          .ok (p₁, items.foldl (expandStep menu_id) m,
            n.children ++ items.map Prod.fst) ∧
        get_menu_child_nodes (items.foldl (expandStep menu_id) m) vs fid menu_id items =
          .ok (p₂, m₂, (n.children ++ items.map Prod.fst) ++ items.map Prod.fst) ∧
        ((m.nodes.map Prod.fst).Nodup →
          ((items.foldl (expandStep menu_id) m).nodes.map Prod.fst).Nodup) := by
  intro m vs fid menu_id n items h hmem
  have h1 := fold_expand_lookup menu_id items m n h hmem
  have h2 := fold_expand_lookup menu_id items (items.foldl (expandStep menu_id) m) _ h1 hmem
  refine ⟨⟨"form:j_idt" ++ toString (fid.getD 0), vs.getD "", menu_id⟩,
    ⟨"form:j_idt" ++ toString (fid.getD 0), vs.getD "", menu_id⟩,
    items.foldl (expandStep menu_id) (items.foldl (expandStep menu_id) m),
    ?_, ?_, ?_⟩
  · simp [get_menu_child_nodes, h, h1]
  · simp [get_menu_child_nodes, h1, h2]
  · exact fold_expand_nodup menu_id items m

/-- C3 (witness): the corrected claim at the concrete demo menu, expanding
the schooling root twice with one discovered item. -/
theorem C3_reexpansion_appends_duplicates_witness :
    ∃ p₁ p₂ m₂,
      get_menu_child_nodes demo_menu none none "submenu_291906" c3_items =
        .ok (p₁, c3_items.foldl (expandStep "submenu_291906") demo_menu,
          (Node.new "submenu_291906" "Schooling" none).children ++ c3_items.map Prod.fst) ∧
      get_menu_child_nodes (c3_items.foldl (expandStep "submenu_291906") demo_menu) none none
          "submenu_291906" c3_items =
        .ok (p₂, m₂,
          ((Node.new "submenu_291906" "Schooling" none).children ++ c3_items.map Prod.fst)
            ++ c3_items.map Prod.fst) ∧
      ((demo_menu.nodes.map Prod.fst).Nodup →
        ((c3_items.foldl (expandStep "submenu_291906") demo_menu).nodes.map Prod.fst).Nodup) :=
  C3_reexpansion_appends_duplicates demo_menu none none "submenu_291906"
    (Node.new "submenu_291906" "Schooling" none) c3_items (by decide) (by decide)

/-- C6: when the schedule response body does not contain the fixed
delimiter prefix `<![CDATA[{"events" : `, `get_schedule`'s response
processing returns the protocol-format error and no partial event list;
and when the delimited JSON decodes to a record list in which some record
fails conversion (every record before it converting successfully), the
result is that record's error, with no partial list of events. -/
theorem C6_schedule_failures_abort :
    (∀ (text : List Char) (decode : List Char → Except String (List RawEvent)),
      splitOnceL scheduleSplitter text = none →
      processScheduleResponse text decode =
        .ok (.error "Response to get schedule was not valid")) ∧
    (∀ (text : List Char) (decode : List Char → Except String (List RawEvent))
      (a rest data b : List Char) (pre : List RawEvent) (r : RawEvent)
      (post : List RawEvent) (e : String),
      splitOnceL scheduleSplitter text = some (a, rest) →
      splitOnceL scheduleCloser rest = some (data, b) →
      decode data = .ok (pre ++ r :: post) →
      (∀ x ∈ pre, ∃ ev, Event.from_raw_event x = .ok (.ok ev)) →
      Event.from_raw_event r = .ok (.error e) →
      processScheduleResponse text decode = .ok (.error e)) := by
  constructor
  · intro text decode h
    simp [processScheduleResponse, h]
  · intro text decode a rest data b pre r post e h1 h2 h3 hpre hr
    simp only [processScheduleResponse, h1, h2, h3]
    exact convertEvents_error pre r post e hpre hr

/-- C6 (witness): the theorem applied to a concrete delimiter-less body
(protocol-format error) and to a concrete well-delimited body whose decoded
batch contains one inconvertible record (that record's parse error, no
list). -/
theorem C6_schedule_failures_abort_witness :
    processScheduleResponse c6_bad_text c6_decode_empty =
      .ok (.error "Response to get schedule was not valid") ∧
    processScheduleResponse c6_good_text c6_decode_bad =
      .ok (.error unrecognizedTitleMsg) :=
  ⟨C6_schedule_failures_abort.1 c6_bad_text c6_decode_empty (by decide),
    C6_schedule_failures_abort.2 c6_good_text c6_decode_bad
      [] ("[]".toList ++ scheduleCloser) "[]".toList [] [] c6_bad_raw [] unrecognizedTitleMsg
      (by decide) (by decide) (by decide) (by simp) (by decide)⟩

/-- C9: for every node id not present in the flat index, `is_node_loaded`
returns false and both `get_menu_child_nodes` and `get_class_groups` fail
with a precondition error (in the embedding these checks are the phase
before any request is issued); `get_class_groups` likewise fails in its
pre-network phase when the node exists but is not a leaf. -/
theorem C9_precondition_failures :
    ∀ (m : Menu) (id : String),
      (m.get_menu_node id = none →
        m.is_node_loaded id = false ∧
        (∀ (vs : Option String) (fid : Option Nat) (items : List (String × String)),
          exceptIsError (get_menu_child_nodes m vs fid id items) = true) ∧
        exceptIsError (get_class_groups_precheck m id) = true) ∧
      (∀ n : Node, m.get_menu_node id = some n → n.is_leaf = false →
        exceptIsError (get_class_groups_precheck m id) = true) := by
  intro m id
  constructor
  · intro h
    refine ⟨?_, ?_, ?_⟩
    · simp [Menu.is_node_loaded, h]
    · intro vs fid items
      simp [get_menu_child_nodes, h, exceptIsError]
    · simp [get_class_groups_precheck, h, exceptIsError]
  · intro n h hleaf
    simp [get_class_groups_precheck, h, hleaf, exceptIsError]

/-- C9 (witness): the theorem at a concrete menu, for an id absent from the
index and for the non-leaf schooling root. -/
theorem C9_precondition_failures_witness :
    (demo_menu.is_node_loaded "nope" = false ∧
      exceptIsError (get_menu_child_nodes demo_menu none none "nope" []) = true ∧
      exceptIsError (get_class_groups_precheck demo_menu "nope") = true) ∧
    exceptIsError (get_class_groups_precheck demo_menu "submenu_291906") = true :=
  ⟨⟨((C9_precondition_failures demo_menu "nope").1 (by decide)).1,
    ((C9_precondition_failures demo_menu "nope").1 (by decide)).2.1 none none [],
    ((C9_precondition_failures demo_menu "nope").1 (by decide)).2.2⟩,
    (C9_precondition_failures demo_menu "submenu_291906").2
      (Node.new "submenu_291906" "Schooling" none) (by decide) (by decide)⟩

/-- C10: for every raw event whose id string parses as a decimal `u32` and
whose title the title parser accepts, `Event::from_raw_event` returns `Ok`,
the resulting event's id is the parsed integer, its start and end
timestamps are the raw event's start and end unchanged, and its kind is
`map_kind` of the raw `className` — the case-insensitive table lookup that
maps unknown labels to `Other`. -/
theorem C10_conversion_preserves_fields :
    ∀ (e : RawEvent) (idv : Nat) (t : ParsedTitle),
      parseU32 e.id = some idv → parse_title e.title = .ok (.ok t) →
      Event.from_raw_event e = .ok (.ok
        { id := idv, kind := map_kind e.className, start := e.start, «end» := e.«end»,
          rooms := t.rooms, subject := t.subject, chapter := t.chapter,
          participants := t.participants }) := by
  intro e idv t h1 h2
  simp [Event.from_raw_event, parse_event, h1, h2]

/-- C10 (witness): the theorem at a concrete raw event with id `"123"`,
class name `"CM"` (course) and a parseable title; start/end pass through. -/
theorem C10_conversion_preserves_fields_witness :
    Event.from_raw_event c10_raw = .ok (.ok
      { id := 123, kind := .Course, start := 5, «end» := 7,
        rooms := ["A101".toList, "A102".toList], subject := "Mathematics".toList,
        chapter := none, participants := ["Vectors".toList] }) :=
  C10_conversion_preserves_fields c10_raw 123
    { rooms := ["A101".toList, "A102".toList], subject := "Mathematics".toList,
      chapter := none, participants := ["Vectors".toList] }
    (by decide) (by decide)

end Aurion

